import Mathlib

/-!
Shallow embedding of the fast-webgl wrapper (src/shader.ts, src/texture.ts,
src/types.ts).  The WebGL driver is modelled as an oracle `GLConfig` that
fixes the outcome of every driver call (context acquisition, shader creation
and compile status, program creation and link/validate status, buffer and
texture allocation, uniform/attribute location lookup), and as a trace of
`GLEvent`s recording every observable call issued to the graphics layer.
Handles are allocated from a counter in `GLState`.  JavaScript `Record`
objects are modelled as association lists with first-occurrence update
semantics (`recordSet`/`recordGet`).
-/

set_option autoImplicit false

/-- Uniform values in the source are `number | number[]`; numbers are modelled
as rationals. -/
inductive UniformValue where
  | num (x : ℚ)
  | arr (xs : List ℚ)
  deriving DecidableEq

/-- The two shader stages (`gl.VERTEX_SHADER` / `gl.FRAGMENT_SHADER`). -/
inductive ShaderType where
  | vertex
  | fragment
  deriving DecidableEq

/-- A uniform upload call issued to the graphics layer
(`gl.uniform1f` .. `gl.uniform4f`, `gl.uniform1i`). -/
inductive Upload where
  | u1f (loc : Nat) (x : ℚ)
  | u2f (loc : Nat) (x y : ℚ)
  | u3f (loc : Nat) (x y z : ℚ)
  | u4f (loc : Nat) (x y z w : ℚ)
  | u1i (loc : Nat) (i : Int)
  deriving DecidableEq

/-- Number of float components carried by an upload call. -/
def Upload.components : Upload → Nat
  | .u1f _ _ => 1
  | .u2f _ _ _ => 2
  | .u3f _ _ _ _ => 3
  | .u4f _ _ _ _ _ => 4
  | .u1i _ _ => 1

/-- Location of the upload call. -/
def Upload.loc : Upload → Nat
  | .u1f l _ => l
  | .u2f l _ _ => l
  | .u3f l _ _ _ => l
  | .u4f l _ _ _ _ => l
  | .u1i l _ => l

/-- Observable calls into the graphics layer. -/
inductive GLEvent where
  | createShader (h : Nat)
  | deleteShader (h : Nat)
  | createProgram (h : Nat)
  | deleteProgram (h : Nat)
  | attachShader (p sh : Nat)
  | linkProgram (h : Nat)
  | validateProgram (h : Nat)
  | createTexture (h : Nat)
  | deleteTexture (h : Nat)
  | createBuffer (h : Nat)
  | bindBuffer (h : Nat)
  | bufferData (data : List Int)
  | enableVertexAttribArray (loc : Int)
  | vertexAttribPointer (loc : Int) (size : Nat)
  | useProgram (h : Nat)
  | viewport (x y w h : Int)
  | clearColor (r g b a : ℚ)
  | clear
  | drawArrays (first count : Nat)
  | upload (u : Upload)
  | warn (msg : String)
  deriving DecidableEq

/-- Driver oracle: the outcome of every driver-side decision during the
synchronous lifetime of a `FastWebGL` object. -/
structure GLConfig where
  contextOk : Bool
  windowInnerWidth : Int
  windowInnerHeight : Int
  canvasInitialWidth : Int
  canvasInitialHeight : Int
  shaderCreateOk : ShaderType → Bool
  compileOk : ShaderType → Bool
  shaderInfoLog : ShaderType → String
  programCreateOk : Bool
  linkOk : Bool
  validateOk : Bool
  programInfoLog : String
  textureCreateOk : Nat → Bool
  bufferCreateOk : Bool
  attribLocation : String → Int
  uniformLocation : String → Option Nat
  now : ℚ

/-- Handle allocator plus the trace of calls issued so far. -/
structure GLState where
  nextHandle : Nat
  events : List GLEvent
  deriving DecidableEq

/-- Append one event to the trace. -/
def GLState.emit (s : GLState) (e : GLEvent) : GLState :=
  { s with events := s.events ++ [e] }

/-- JavaScript record lookup `m[k]` (own properties only). -/
def recordGet {α : Type} (m : List (String × α)) (k : String) : Option α :=
  match m with
  | [] => none
  | (k0, v0) :: rest => if k0 = k then some v0 else recordGet rest k

/-- JavaScript record assignment `m[k] = v`: overwrite in place if the key is
present, append otherwise. -/
def recordSet {α : Type} (m : List (String × α)) (k : String) (v : α) :
    List (String × α) :=
  match m with
  | [] => [(k, v)]
  | (k0, v0) :: rest =>
      if k0 = k then (k, v) :: rest else (k0, v0) :: recordSet rest k v

/-- The key list of a record. -/
def recordKeys {α : Type} (m : List (String × α)) : List String :=
  m.map Prod.fst

/-- A uniform descriptor `{ name, value }` from types.ts. -/
structure Uniform where
  name : String
  value : UniformValue
  deriving DecidableEq

/-- A texture descriptor `{ name, source }` supplied at construction.  The
optional sampling options only take effect inside the asynchronous image
`onload` callback, outside the synchronous model. -/
structure TextureDesc where
  name : String
  source : String
  deriving DecidableEq

/-- The synchronous state of a `Texture` instance (texture.ts, class
`Texture`): the allocated handle and the constructor parameters it stores. -/
structure Texture where
  texture : Nat
  unit : Nat
  name : String
  source : String
  deriving DecidableEq

/-- The state of a `FastWebGL` instance after its constructor ran. -/
structure FastWebGL where
  width : Int
  height : Int
  canvasWidth : Int
  canvasHeight : Int
  vertexShader : Nat
  fragmentShader : Nat
  program : Nat
  textures : List Texture
  uniforms : List (String × Nat)
  uniformValues : List (String × UniformValue)
  attribLocations : List (String × Int)
  startTime : ℚ
  deriving DecidableEq

/-- Constructor parameters of `FastWebGL` (texture.ts, type `Params`). -/
structure Params where
  vertexSource : String
  fragmentSource : String
  textures : List TextureDesc
  uniforms : List Uniform
  width : Option Int
  height : Option Int
  deriving DecidableEq

/-- Embedding of `Shader.createShader` (shader.ts lines 18-32), run from the
`Shader` constructor: create the shader handle (throw if the driver returns
null), compile, and on a failed compile status delete the shader and throw
with the driver's info log. -/
def Shader.createShader (cfg : GLConfig) (ty : ShaderType) (s : GLState) :
    GLState × Except String Nat :=
  if cfg.shaderCreateOk ty then
    let h := s.nextHandle
    let s1 : GLState :=
      { nextHandle := h + 1, events := s.events ++ [GLEvent.createShader h] }
    if cfg.compileOk ty then (s1, Except.ok h)
    else
      (s1.emit (GLEvent.deleteShader h),
       Except.error ("Error compiling shader:" ++ cfg.shaderInfoLog ty))
  else (s, Except.error "Error creating shader.")

/-- Embedding of `FastWebGL.createProgram` (texture.ts lines 194-213):
create the program, attach both shaders, link and validate, then check the
link status (delete the program and throw on failure) and the validate
status (warn only on failure). -/
def FastWebGL.createProgram (cfg : GLConfig) (vs fs : Nat) (s : GLState) :
    GLState × Except String Nat :=
  if cfg.programCreateOk then
    let h := s.nextHandle
    let s1 : GLState :=
      { nextHandle := h + 1,
        events := s.events ++
          [GLEvent.createProgram h, GLEvent.attachShader h vs,
           GLEvent.attachShader h fs, GLEvent.linkProgram h,
           GLEvent.validateProgram h] }
    if cfg.linkOk then
      if cfg.validateOk then (s1, Except.ok h)
      else
        (s1.emit (GLEvent.warn ("Error validating program: " ++ cfg.programInfoLog)),
         Except.ok h)
    else
      (s1.emit (GLEvent.deleteProgram h),
       Except.error ("Error linking program: " ++ cfg.programInfoLog))
  else (s, Except.error "Unable to create shader program.")

/-- Embedding of the synchronous part of the `Texture` constructor
(texture.ts lines 21-44): allocate the texture handle, throwing if the
driver returns null.  The image load started by `loadTexture` completes
asynchronously and is outside the synchronous trace. -/
def Texture.create (cfg : GLConfig) (unit : Nat) (name source : String)
    (s : GLState) : GLState × Except String Texture :=
  if cfg.textureCreateOk unit then
    let h := s.nextHandle
    let s1 : GLState :=
      { nextHandle := h + 1, events := s.events ++ [GLEvent.createTexture h] }
    (s1, Except.ok { texture := h, unit := unit, name := name, source := source })
  else (s, Except.error "Failed to create WebGL texture.")

/-- Embedding of `textures.map((desc, i) => new Texture({ ..., unit: i }))`
(texture.ts lines 140-150), sequential in descriptor order with unit index
starting at the given value. -/
def Texture.createList (cfg : GLConfig) (descs : List TextureDesc) (i : Nat)
    (s : GLState) : GLState × Except String (List Texture) :=
  match descs with
  | [] => (s, Except.ok [])
  | d :: rest =>
    match Texture.create cfg i d.name d.source s with
    | (s1, Except.error e) => (s1, Except.error e)
    | (s1, Except.ok t) =>
      match Texture.createList cfg rest (i + 1) s1 with
      | (s2, Except.error e) => (s2, Except.error e)
      | (s2, Except.ok ts) => (s2, Except.ok (t :: ts))

/-- The fixed full-screen quad vertex data (texture.ts line 313). -/
def quadPositions : List Int := [-1, -1, 1, -1, -1, 1, -1, 1, 1, -1, 1, 1]

/-- Embedding of `FastWebGL.setupAttributes` (texture.ts lines 305-320):
record the `a_position` attribute location, create the position buffer
(throw if the driver returns null), upload the quad and configure the
attribute pointer. -/
def FastWebGL.setupAttributes (cfg : GLConfig) (s : GLState) :
    GLState × Except String (List (String × Int)) :=
  let loc := cfg.attribLocation "a_position"
  let attribs : List (String × Int) := [("a_position", loc)]
  if cfg.bufferCreateOk then
    let h := s.nextHandle
    let s1 : GLState :=
      { nextHandle := h + 1,
        events := s.events ++
          [GLEvent.createBuffer h, GLEvent.bindBuffer h,
           GLEvent.bufferData quadPositions,
           GLEvent.enableVertexAttribArray loc,
           GLEvent.vertexAttribPointer loc 2] }
    (s1, Except.ok attribs)
  else (s, Except.error "Unable to create buffer.")

/-- Embedding of `FastWebGL.setUniformValue` (texture.ts lines 256-277): a
number uploads via `uniform1f`; an array dispatches on its length, with
lengths 1-4 uploading via `uniform1f`..`uniform4f` and every other length
falling through the switch with no upload. -/
def FastWebGL.setUniformValue (loc : Nat) (v : UniformValue) : List Upload :=
  match v with
  | .num x => [Upload.u1f loc x]
  | .arr xs =>
    match xs with
    | [a] => [Upload.u1f loc a]
    | [a, b] => [Upload.u2f loc a b]
    | [a, b, c] => [Upload.u3f loc a b c]
    | [a, b, c, d] => [Upload.u4f loc a b c d]
    | _ => []

/-- Embedding of `FastWebGL.setUniforms` (texture.ts lines 233-242): for each
descriptor in order, look the name up in the linked program; if the location
is null skip it, otherwise store the location and the value in the two
records and upload the value.  Accumulator form. -/
def FastWebGL.setUniformsAux (cfg : GLConfig) (descs : List Uniform)
    (us : List (String × Nat)) (uvs : List (String × UniformValue))
    (evs : List GLEvent) :
    List (String × Nat) × List (String × UniformValue) × List GLEvent :=
  match descs with
  | [] => (us, uvs, evs)
  | u :: rest =>
    match cfg.uniformLocation u.name with
    | none => FastWebGL.setUniformsAux cfg rest us uvs evs
    | some loc =>
        FastWebGL.setUniformsAux cfg rest (recordSet us u.name loc)
          (recordSet uvs u.name u.value)
          (evs ++ (FastWebGL.setUniformValue loc u.value).map GLEvent.upload)

/-- Embedding of `FastWebGL.setUniforms` starting from the empty records. -/
def FastWebGL.setUniforms (cfg : GLConfig) (descs : List Uniform) :
    List (String × Nat) × List (String × UniformValue) × List GLEvent :=
  FastWebGL.setUniformsAux cfg descs [] [] []

/-- Embedding of `FastWebGL.draw` (texture.ts lines 334-340): viewport to the
canvas dimensions, clear to transparent black, use the program, draw the six
quad vertices. -/
def FastWebGL.draw (w : FastWebGL) : List GLEvent :=
  [GLEvent.viewport 0 0 w.canvasWidth w.canvasHeight,
   GLEvent.clearColor 0 0 0 0,
   GLEvent.clear,
   GLEvent.useProgram w.program,
   GLEvent.drawArrays 0 6]

/-- Embedding of `FastWebGL.resize` (texture.ts lines 348-354): store the new
dimensions, resize the canvas, set the viewport. -/
def FastWebGL.resize (w : FastWebGL) (width height : Int) :
    FastWebGL × List GLEvent :=
  ({ w with width := width, height := height,
            canvasWidth := width, canvasHeight := height },
   [GLEvent.viewport 0 0 width height])

/-- Embedding of `FastWebGL.updateUniform` (texture.ts lines 285-292): look
the name up in the location record; if present (locations are objects, hence
truthy), store the new value, upload it, and draw; otherwise do nothing. -/
def FastWebGL.updateUniform (w : FastWebGL) (name : String) (v : UniformValue) :
    FastWebGL × List GLEvent :=
  match recordGet w.uniforms name with
  | some loc =>
      let w2 : FastWebGL := { w with uniformValues := recordSet w.uniformValues name v }
      (w2, (FastWebGL.setUniformValue loc v).map GLEvent.upload ++ FastWebGL.draw w2)
  | none => (w, [])

/-- Embedding of `FastWebGL.dispose` (texture.ts lines 374-379): delete the
program, dispose the vertex then the fragment shader, then dispose every
texture in order. -/
def FastWebGL.dispose (w : FastWebGL) : List GLEvent :=
  GLEvent.deleteProgram w.program ::
  GLEvent.deleteShader w.vertexShader ::
  GLEvent.deleteShader w.fragmentShader ::
  w.textures.map (fun t => GLEvent.deleteTexture t.texture)

/-- Embedding of the `FastWebGL` constructor (texture.ts lines 132-161):
acquire the context, resolve dimensions, compile both shaders, link the
program, create the textures with sequential unit indices, use the program,
set up the quad attribute, register the initial uniforms, resize, and issue
the first draw. -/
def FastWebGL.construct (cfg : GLConfig) (p : Params) :
    GLState × Except String FastWebGL :=
  let s0 : GLState := { nextHandle := 0, events := [] }
  if cfg.contextOk then
    let width := p.width.getD cfg.windowInnerWidth
    let height := p.height.getD cfg.windowInnerHeight
    match Shader.createShader cfg ShaderType.vertex s0 with
    | (s1, Except.error e) => (s1, Except.error e)
    | (s1, Except.ok vs) =>
      match Shader.createShader cfg ShaderType.fragment s1 with
      | (s2, Except.error e) => (s2, Except.error e)
      | (s2, Except.ok fs) =>
        match FastWebGL.createProgram cfg vs fs s2 with
        | (s3, Except.error e) => (s3, Except.error e)
        | (s3, Except.ok prog) =>
          match Texture.createList cfg p.textures 0 s3 with
          | (s4, Except.error e) => (s4, Except.error e)
          | (s4, Except.ok ts) =>
            let s5 := s4.emit (GLEvent.useProgram prog)
            match FastWebGL.setupAttributes cfg s5 with
            | (s6, Except.error e) => (s6, Except.error e)
            | (s6, Except.ok attribs) =>
              let r := FastWebGL.setUniforms cfg p.uniforms
              let s7 : GLState := { s6 with events := s6.events ++ r.2.2 }
              let w0 : FastWebGL :=
                { width := width, height := height,
                  canvasWidth := cfg.canvasInitialWidth,
                  canvasHeight := cfg.canvasInitialHeight,
                  vertexShader := vs, fragmentShader := fs, program := prog,
                  textures := ts, uniforms := r.1, uniformValues := r.2.1,
                  attribLocations := attribs, startTime := cfg.now }
              let rr := FastWebGL.resize w0 width height
              let s8 : GLState := { s7 with events := s7.events ++ rr.2 }
              let s9 : GLState :=
                { s8 with events := s8.events ++ FastWebGL.draw rr.1 }
              (s9, Except.ok rr.1)
  else (s0, Except.error "WebGL not supported.")

/-- C1: a scalar uploads as one 1-component float; an array of length 1-4
uploads as one vector with that many components; any other array length
issues no upload at all. -/
theorem setUniformValue_length_dispatch :
    (∀ (loc : Nat) (x : ℚ),
        FastWebGL.setUniformValue loc (UniformValue.num x) = [Upload.u1f loc x]) ∧
    (∀ (loc : Nat) (xs : List ℚ), 1 ≤ xs.length → xs.length ≤ 4 →
        ∃ u : Upload,
          FastWebGL.setUniformValue loc (UniformValue.arr xs) = [u] ∧
          u.components = xs.length ∧ u.loc = loc) ∧
    (∀ (loc : Nat) (xs : List ℚ), xs.length = 0 ∨ 5 ≤ xs.length →
        FastWebGL.setUniformValue loc (UniformValue.arr xs) = []) := by
  refine ⟨fun loc x => rfl, fun loc xs h1 h4 => ?_, fun loc xs h => ?_⟩
  · match xs with
    | [a] => exact ⟨Upload.u1f loc a, rfl, rfl, rfl⟩
    | [a, b] => exact ⟨Upload.u2f loc a b, rfl, rfl, rfl⟩
    | [a, b, c] => exact ⟨Upload.u3f loc a b c, rfl, rfl, rfl⟩
    | [a, b, c, d] => exact ⟨Upload.u4f loc a b c d, rfl, rfl, rfl⟩
    | [] => simp at h1
    | a :: b :: c :: d :: e :: rest => simp [List.length] at h4
  · match xs with
    | [] => rfl
    | a :: b :: c :: d :: e :: rest => rfl
    | [a] => simp at h
    | [a, b] => simp at h
    | [a, b, c] => simp at h
    | [a, b, c, d] => simp at h

/-- C1 witness: evaluated at length 2 and at length 5. -/
theorem setUniformValue_length_dispatch_witness :
    (∃ u : Upload,
        FastWebGL.setUniformValue 7 (UniformValue.arr [1, 2]) = [u] ∧
        u.components = 2 ∧ u.loc = 7) ∧
    FastWebGL.setUniformValue 7 (UniformValue.arr [1, 2, 3, 4, 5]) = [] :=
  ⟨setUniformValue_length_dispatch.2.1 7 [1, 2] (by decide) (by decide),
   setUniformValue_length_dispatch.2.2 7 [1, 2, 3, 4, 5] (Or.inr (by decide))⟩

/-- Writing a key always makes it readable back with the written value. -/
theorem recordGet_recordSet_self {α : Type} (m : List (String × α)) (k : String)
    (v : α) : recordGet (recordSet m k v) k = some v := by
  induction m with
  | nil => simp [recordSet, recordGet]
  | cons p rest ih =>
    by_cases hk : p.1 = k
    · simp [recordSet, recordGet, hk]
    · simp [recordSet, recordGet, hk, ih]

/-- Out-of-range array lengths fall through the switch with no upload. -/
theorem setUniformValue_arr_skip (loc : Nat) (xs : List ℚ)
    (h : xs.length = 0 ∨ 5 ≤ xs.length) :
    FastWebGL.setUniformValue loc (UniformValue.arr xs) = [] := by
  match xs with
  | [] => rfl
  | a :: b :: c :: d :: e :: rest => rfl
  | [a] => simp at h
  | [a, b] => simp at h
  | [a, b, c] => simp at h
  | [a, b, c, d] => simp at h

/-- No upload event is a draw call. -/
theorem count_drawArrays_map_upload (l : List Upload) (f c : Nat) :
    (l.map GLEvent.upload).count (GLEvent.drawArrays f c) = 0 := by
  rw [List.count_eq_zero]
  simp

/-- One frame contains exactly one draw call. -/
theorem count_drawArrays_draw (w : FastWebGL) :
    (FastWebGL.draw w).count (GLEvent.drawArrays 0 6) = 1 := by
  simp [FastWebGL.draw, List.count_cons]

/-- A concrete post-construction state used to evaluate the theorems. -/
def wE : FastWebGL :=
  { width := 800, height := 600, canvasWidth := 800, canvasHeight := 600,
    vertexShader := 0, fragmentShader := 1, program := 2,
    textures := [{ texture := 3, unit := 0, name := "u_tex0", source := "a.png" },
                 { texture := 4, unit := 1, name := "u_tex1", source := "b.png" }],
    uniforms := [("u_time", 10), ("u_resolution", 11)],
    uniformValues := [("u_time", UniformValue.num 0),
                      ("u_resolution", UniformValue.arr [800, 600])],
    attribLocations := [("a_position", 0)], startTime := 0 }

/-- C3: updating a registered uniform stores the new value, issues exactly the
uploads of that value followed by one frame, and hence exactly one draw call. -/
theorem updateUniform_registered_redraws (w : FastWebGL) (name : String)
    (v : UniformValue) (loc : Nat) (h : recordGet w.uniforms name = some loc) :
    recordGet (FastWebGL.updateUniform w name v).1.uniformValues name = some v ∧
    (FastWebGL.updateUniform w name v).2 =
      (FastWebGL.setUniformValue loc v).map GLEvent.upload ++ FastWebGL.draw w ∧
    (FastWebGL.updateUniform w name v).2.count (GLEvent.drawArrays 0 6) = 1 := by
  refine ⟨?_, ?_, ?_⟩
  · simp only [FastWebGL.updateUniform, h]
    exact recordGet_recordSet_self _ _ _
  · simp only [FastWebGL.updateUniform, h, FastWebGL.draw]
  · simp only [FastWebGL.updateUniform, h, List.count_append,
      count_drawArrays_map_upload, count_drawArrays_draw]

/-- C3 witness: updating the registered scalar uniform u_time to 3/2 on the
concrete state stores 3/2 and issues exactly one draw call. -/
theorem updateUniform_registered_redraws_witness :
    recordGet (FastWebGL.updateUniform wE "u_time" (UniformValue.num (3/2))).1.uniformValues
        "u_time" = some (UniformValue.num (3/2)) ∧
    (FastWebGL.updateUniform wE "u_time" (UniformValue.num (3/2))).2 =
      (FastWebGL.setUniformValue 10 (UniformValue.num (3/2))).map GLEvent.upload ++
        FastWebGL.draw wE ∧
    (FastWebGL.updateUniform wE "u_time" (UniformValue.num (3/2))).2.count
        (GLEvent.drawArrays 0 6) = 1 :=
  updateUniform_registered_redraws wE "u_time" (UniformValue.num (3/2)) 10 (by decide)

/-- C4: updating a name that is not in the location record leaves the state
unchanged and issues no call at all. -/
theorem updateUniform_unregistered_noop (w : FastWebGL) (name : String)
    (v : UniformValue) (h : recordGet w.uniforms name = none) :
    FastWebGL.updateUniform w name v = (w, []) := by
  simp only [FastWebGL.updateUniform, h]

/-- C4 witness: an unregistered name on the concrete state is a no-op. -/
theorem updateUniform_unregistered_noop_witness :
    FastWebGL.updateUniform wE "u_missing" (UniformValue.num 1) = (wE, []) :=
  updateUniform_unregistered_noop wE "u_missing" (UniformValue.num 1) (by decide)

/-- C9: updating a registered uniform with an array of out-of-range length
still overwrites the stored value and still issues one frame, with no upload
event for the value. -/
theorem updateUniform_skipped_length_still_redraws (w : FastWebGL) (name : String)
    (xs : List ℚ) (loc : Nat) (h : recordGet w.uniforms name = some loc)
    (hlen : xs.length = 0 ∨ 5 ≤ xs.length) :
    recordGet (FastWebGL.updateUniform w name (UniformValue.arr xs)).1.uniformValues
        name = some (UniformValue.arr xs) ∧
    (FastWebGL.updateUniform w name (UniformValue.arr xs)).2 = FastWebGL.draw w ∧
    (∀ u : Upload,
        GLEvent.upload u ∉ (FastWebGL.updateUniform w name (UniformValue.arr xs)).2) ∧
    (FastWebGL.updateUniform w name (UniformValue.arr xs)).2.count
        (GLEvent.drawArrays 0 6) = 1 := by
  refine ⟨?_, ?_, ?_, ?_⟩
  · simp only [FastWebGL.updateUniform, h]
    exact recordGet_recordSet_self _ _ _
  · simp only [FastWebGL.updateUniform, h, setUniformValue_arr_skip loc xs hlen,
      List.map_nil, List.nil_append, FastWebGL.draw]
  · intro u
    simp only [FastWebGL.updateUniform, h, setUniformValue_arr_skip loc xs hlen,
      List.map_nil, List.nil_append, FastWebGL.draw]
    simp
  · simp only [FastWebGL.updateUniform, h, setUniformValue_arr_skip loc xs hlen,
      List.map_nil, List.nil_append, count_drawArrays_draw]

/-- C9 witness: a length-5 array on the registered uniform u_resolution of the
concrete state is stored, uploads nothing, and still draws once. -/
theorem updateUniform_skipped_length_still_redraws_witness :
    recordGet (FastWebGL.updateUniform wE "u_resolution"
        (UniformValue.arr [1, 2, 3, 4, 5])).1.uniformValues "u_resolution" =
      some (UniformValue.arr [1, 2, 3, 4, 5]) ∧
    (FastWebGL.updateUniform wE "u_resolution"
        (UniformValue.arr [1, 2, 3, 4, 5])).2 = FastWebGL.draw wE ∧
    (∀ u : Upload, GLEvent.upload u ∉
        (FastWebGL.updateUniform wE "u_resolution" (UniformValue.arr [1, 2, 3, 4, 5])).2) ∧
    (FastWebGL.updateUniform wE "u_resolution"
        (UniformValue.arr [1, 2, 3, 4, 5])).2.count (GLEvent.drawArrays 0 6) = 1 :=
  updateUniform_skipped_length_still_redraws wE "u_resolution" [1, 2, 3, 4, 5] 11
    (by decide) (Or.inr (by decide))

/-- C7: resize stores the new dimensions on the object and the canvas and
issues exactly one viewport call and nothing else (in particular no draw
call); a draw after resize(800, 600) then starts with a viewport call
covering exactly (0, 0, 800, 600). -/
theorem resize_viewport_no_draw (w : FastWebGL) (width height : Int) :
    (FastWebGL.resize w width height).1.width = width ∧
    (FastWebGL.resize w width height).1.height = height ∧
    (FastWebGL.resize w width height).1.canvasWidth = width ∧
    (FastWebGL.resize w width height).1.canvasHeight = height ∧
    (FastWebGL.resize w width height).2 = [GLEvent.viewport 0 0 width height] ∧
    FastWebGL.draw (FastWebGL.resize w 800 600).1 =
      [GLEvent.viewport 0 0 800 600, GLEvent.clearColor 0 0 0 0, GLEvent.clear,
       GLEvent.useProgram w.program, GLEvent.drawArrays 0 6] :=
  ⟨rfl, rfl, rfl, rfl, rfl, rfl⟩

/-- Texture delete events of distinct textures never collide with shader or
program delete events. -/
theorem count_deleteTexture_map (ts : List Texture) (x : Nat)
    (hnd : (ts.map (fun t => t.texture)).Nodup)
    (hx : x ∈ ts.map (fun t => t.texture)) :
    (ts.map (fun t => GLEvent.deleteTexture t.texture)).count
      (GLEvent.deleteTexture x) = 1 := by
  have hmap : ts.map (fun t => GLEvent.deleteTexture t.texture) =
      (ts.map (fun t => t.texture)).map GLEvent.deleteTexture :=
    (List.map_map _ _ _).symm
  rw [hmap,
    List.count_map_of_injective _ GLEvent.deleteTexture
      (fun a b hab => by injection hab) x]
  exact List.count_eq_one_of_mem hnd hx

/-- C6: dispose issues exactly the delete of the program, then the vertex
shader, then the fragment shader, then each texture in order, and each owned
handle is released exactly once. -/
theorem dispose_releases_in_order (w : FastWebGL)
    (hvf : w.vertexShader ≠ w.fragmentShader)
    (hnd : (w.textures.map (fun t => t.texture)).Nodup) :
    FastWebGL.dispose w =
      GLEvent.deleteProgram w.program :: GLEvent.deleteShader w.vertexShader ::
      GLEvent.deleteShader w.fragmentShader ::
      w.textures.map (fun t => GLEvent.deleteTexture t.texture) ∧
    (FastWebGL.dispose w).count (GLEvent.deleteProgram w.program) = 1 ∧
    (FastWebGL.dispose w).count (GLEvent.deleteShader w.vertexShader) = 1 ∧
    (FastWebGL.dispose w).count (GLEvent.deleteShader w.fragmentShader) = 1 ∧
    ∀ t ∈ w.textures,
      (FastWebGL.dispose w).count (GLEvent.deleteTexture t.texture) = 1 := by
  have hztex : ∀ (e : GLEvent), (∀ u : Nat, e ≠ GLEvent.deleteTexture u) →
      (w.textures.map (fun t => GLEvent.deleteTexture t.texture)).count e = 0 := by
    intro e he
    rw [List.count_eq_zero]
    simp only [List.mem_map, not_exists]
    intro t hmem
    exact he t.texture hmem.2.symm
  refine ⟨rfl, ?_, ?_, ?_, ?_⟩
  · simp [FastWebGL.dispose, List.count_cons, hztex (GLEvent.deleteProgram w.program)
      (fun u h => by injection h)]
  · simp [FastWebGL.dispose, List.count_cons, hvf, Ne.symm hvf,
      hztex (GLEvent.deleteShader w.vertexShader) (fun u h => by injection h)]
  · simp [FastWebGL.dispose, List.count_cons, hvf, Ne.symm hvf,
      hztex (GLEvent.deleteShader w.fragmentShader) (fun u h => by injection h)]
  · intro t ht
    have hx : t.texture ∈ w.textures.map (fun t => t.texture) :=
      List.mem_map.2 ⟨t, ht, rfl⟩
    simp [FastWebGL.dispose, List.count_cons,
      count_deleteTexture_map w.textures t.texture hnd hx]

/-- C6 witness: dispose of the concrete state releases program 2, shaders 0
and 1, and textures 3 and 4, each exactly once. -/
theorem dispose_releases_in_order_witness :
    FastWebGL.dispose wE =
      GLEvent.deleteProgram wE.program :: GLEvent.deleteShader wE.vertexShader ::
      GLEvent.deleteShader wE.fragmentShader ::
      wE.textures.map (fun t => GLEvent.deleteTexture t.texture) ∧
    (FastWebGL.dispose wE).count (GLEvent.deleteProgram wE.program) = 1 ∧
    (FastWebGL.dispose wE).count (GLEvent.deleteShader wE.vertexShader) = 1 ∧
    (FastWebGL.dispose wE).count (GLEvent.deleteShader wE.fragmentShader) = 1 ∧
    ∀ t ∈ wE.textures,
      (FastWebGL.dispose wE).count (GLEvent.deleteTexture t.texture) = 1 :=
  dispose_releases_in_order wE (by decide) (by decide)

/-- C5: with a program handle available, a failed link status makes
createProgram delete the program and throw an error carrying the driver's
program info log; a successful link with a failed validate status only logs
a warning and returns the program. -/
theorem createProgram_link_validate (cfg : GLConfig) (vs fs : Nat) (s : GLState) :
    (cfg.programCreateOk = true → cfg.linkOk = false →
      (FastWebGL.createProgram cfg vs fs s).2 =
        Except.error ("Error linking program: " ++ cfg.programInfoLog) ∧
      GLEvent.deleteProgram s.nextHandle ∈
        (FastWebGL.createProgram cfg vs fs s).1.events) ∧
    (cfg.programCreateOk = true → cfg.linkOk = true → cfg.validateOk = false →
      (FastWebGL.createProgram cfg vs fs s).2 = Except.ok s.nextHandle ∧
      (FastWebGL.createProgram cfg vs fs s).1.events =
        s.events ++
          [GLEvent.createProgram s.nextHandle,
           GLEvent.attachShader s.nextHandle vs,
           GLEvent.attachShader s.nextHandle fs,
           GLEvent.linkProgram s.nextHandle,
           GLEvent.validateProgram s.nextHandle,
           GLEvent.warn ("Error validating program: " ++ cfg.programInfoLog)]) := by
  constructor
  · intro hc hl
    simp [FastWebGL.createProgram, hc, hl, GLState.emit]
  · intro hc hl hv
    simp [FastWebGL.createProgram, hc, hl, hv, GLState.emit]

/-- C5 witness: evaluated with a driver that fails the link, and one that
links but fails validation. -/
theorem createProgram_link_validate_witness :
    ((FastWebGL.createProgram
        { contextOk := true, windowInnerWidth := 640, windowInnerHeight := 480,
          canvasInitialWidth := 300, canvasInitialHeight := 150,
          shaderCreateOk := fun _ => true, compileOk := fun _ => true,
          shaderInfoLog := fun _ => "", programCreateOk := true,
          linkOk := false, validateOk := true, programInfoLog := "bad link",
          textureCreateOk := fun _ => true, bufferCreateOk := true,
          attribLocation := fun _ => 0, uniformLocation := fun _ => none,
          now := 0 } 0 1 { nextHandle := 2, events := [] }).2 =
      Except.error ("Error linking program: " ++ "bad link") ∧
      GLEvent.deleteProgram 2 ∈
        (FastWebGL.createProgram
          { contextOk := true, windowInnerWidth := 640, windowInnerHeight := 480,
            canvasInitialWidth := 300, canvasInitialHeight := 150,
            shaderCreateOk := fun _ => true, compileOk := fun _ => true,
            shaderInfoLog := fun _ => "", programCreateOk := true,
            linkOk := false, validateOk := true, programInfoLog := "bad link",
            textureCreateOk := fun _ => true, bufferCreateOk := true,
            attribLocation := fun _ => 0, uniformLocation := fun _ => none,
            now := 0 } 0 1 { nextHandle := 2, events := [] }).1.events) :=
  (createProgram_link_validate _ 0 1 _).1 rfl rfl

/-- A driver in which everything succeeds except the fragment shader compile. -/
def cfgFragFail : GLConfig :=
  { contextOk := true, windowInnerWidth := 640, windowInnerHeight := 480,
    canvasInitialWidth := 300, canvasInitialHeight := 150,
    shaderCreateOk := fun _ => true,
    compileOk := fun ty => match ty with
      | ShaderType.vertex => true
      | ShaderType.fragment => false,
    shaderInfoLog := fun _ => "bad fragment", programCreateOk := true,
    linkOk := true, validateOk := true, programInfoLog := "",
    textureCreateOk := fun _ => true, bufferCreateOk := true,
    attribLocation := fun _ => 0, uniformLocation := fun _ => none, now := 0 }

/-- Construction parameters with no textures and no uniforms. -/
def pEmpty : Params :=
  { vertexSource := "v", fragmentSource := "f", textures := [], uniforms := [],
    width := some 800, height := some 600 }

/-- C2 counterexample: when the fragment shader fails to compile, construction
fails, yet the vertex shader handle (handle 0), created before the failure
point, is never released: only the fragment shader itself is deleted. -/
theorem construct_fragment_fail_leaks_vertex_shader :
    (FastWebGL.construct cfgFragFail pEmpty).2 =
      Except.error ("Error compiling shader:" ++ "bad fragment") ∧
    GLEvent.createShader 0 ∈ (FastWebGL.construct cfgFragFail pEmpty).1.events ∧
    GLEvent.deleteShader 0 ∉ (FastWebGL.construct cfgFragFail pEmpty).1.events := by
  refine ⟨rfl, ?_, ?_⟩ <;> decide

/-- C2 amended: a synchronous setup failure is surfaced immediately to the
caller and no object is produced, and the handle whose own status check
failed is released (a shader that fails to compile is deleted, a program
that fails to link is deleted), but handles created at earlier completed
steps are not released: when the fragment shader fails to compile the whole
trace is creation of both shaders plus deletion of the fragment shader only. -/
theorem construct_failure_cleanup (cfg : GLConfig) (p : Params)
    (ty : ShaderType) (vs fs : Nat) (s : GLState) :
    (cfg.shaderCreateOk ty = true → cfg.compileOk ty = false →
      (Shader.createShader cfg ty s).2 =
        Except.error ("Error compiling shader:" ++ cfg.shaderInfoLog ty) ∧
      (Shader.createShader cfg ty s).1.events =
        s.events ++ [GLEvent.createShader s.nextHandle,
                     GLEvent.deleteShader s.nextHandle]) ∧
    (cfg.programCreateOk = true → cfg.linkOk = false →
      (FastWebGL.createProgram cfg vs fs s).2 =
        Except.error ("Error linking program: " ++ cfg.programInfoLog) ∧
      GLEvent.deleteProgram s.nextHandle ∈
        (FastWebGL.createProgram cfg vs fs s).1.events) ∧
    (cfg.contextOk = true →
     cfg.shaderCreateOk ShaderType.vertex = true →
     cfg.compileOk ShaderType.vertex = true →
     cfg.shaderCreateOk ShaderType.fragment = true →
     cfg.compileOk ShaderType.fragment = false →
      (FastWebGL.construct cfg p).2 =
        Except.error ("Error compiling shader:" ++
          cfg.shaderInfoLog ShaderType.fragment) ∧
      (FastWebGL.construct cfg p).1.events =
        [GLEvent.createShader 0, GLEvent.createShader 1,
         GLEvent.deleteShader 1]) := by
  refine ⟨fun hc hk => ?_, fun hpc hl => ?_, fun hctx hvc hvk hfc hfk => ?_⟩
  · simp [Shader.createShader, hc, hk, GLState.emit]
  · simp [FastWebGL.createProgram, hpc, hl, GLState.emit]
  · simp [FastWebGL.construct, Shader.createShader, hctx, hvc, hvk, hfc, hfk,
      GLState.emit]

/-- C2 amended witness: evaluated on the driver that fails fragment compile. -/
theorem construct_failure_cleanup_witness :
    (FastWebGL.construct cfgFragFail pEmpty).2 =
      Except.error ("Error compiling shader:" ++
        cfgFragFail.shaderInfoLog ShaderType.fragment) ∧
    (FastWebGL.construct cfgFragFail pEmpty).1.events =
      [GLEvent.createShader 0, GLEvent.createShader 1,
       GLEvent.deleteShader 1] :=
  (construct_failure_cleanup cfgFragFail pEmpty ShaderType.fragment 0 1
    { nextHandle := 0, events := [] }).2.2 rfl rfl rfl rfl rfl

/-- Writing one key leaves every other key unchanged. -/
theorem recordGet_recordSet_ne {α : Type} (m : List (String × α)) (k n : String)
    (v : α) (hne : k ≠ n) : recordGet (recordSet m k v) n = recordGet m n := by
  induction m with
  | nil => simp [recordSet, recordGet, hne]
  | cons p rest ih =>
    by_cases hk : p.1 = k
    · simp only [recordSet]
      rw [if_pos hk]
      simp only [recordGet]
      rw [if_neg hne, if_neg (hk ▸ hne)]
    · simp only [recordSet]
      rw [if_neg hk]
      by_cases hn : p.1 = n
      · simp [recordGet, hn]
      · simp [recordGet, hn, ih]

/-- Writing a key keeps the key list unchanged when the key is present and
appends the key otherwise. -/
theorem recordKeys_recordSet {α : Type} (m : List (String × α)) (k : String)
    (v : α) :
    recordKeys (recordSet m k v) =
      if (recordGet m k).isSome then recordKeys m else recordKeys m ++ [k] := by
  induction m with
  | nil => simp [recordSet, recordGet, recordKeys]
  | cons p rest ih =>
    by_cases hk : p.1 = k
    · simp [recordSet, recordGet, recordKeys, hk]
    · cases hs : (recordGet rest k).isSome
      · simp [recordSet, recordGet, recordKeys, hk, hs] at ih ⊢
        exact ih
      · simp [recordSet, recordGet, recordKeys, hk, hs] at ih ⊢
        exact ih

/-- A key is readable exactly when it occurs in the key list. -/
theorem recordGet_isSome_iff {α : Type} (m : List (String × α)) (k : String) :
    (recordGet m k).isSome = true ↔ k ∈ recordKeys m := by
  induction m with
  | nil => simp [recordGet, recordKeys]
  | cons p rest ih =>
    by_cases hk : p.1 = k
    · simp [recordGet, recordKeys, hk]
    · simp [recordGet, recordKeys, hk, ih, Ne.symm hk]

/-- Records with equal key lists answer presence queries identically. -/
theorem recordGet_isSome_congr {α β : Type} (m : List (String × α))
    (m2 : List (String × β)) (k : String) (h : recordKeys m = recordKeys m2) :
    (recordGet m k).isSome = (recordGet m2 k).isSome := by
  cases hs : (recordGet m2 k).isSome
  · cases hs2 : (recordGet m k).isSome
    · rfl
    · rw [recordGet_isSome_iff, h, ← recordGet_isSome_iff] at hs2
      rw [hs2] at hs
      exact hs
  · rw [recordGet_isSome_iff, ← h, ← recordGet_isSome_iff] at hs
    exact hs

/-- The two records built by setUniforms always carry the same key list. -/
theorem setUniformsAux_keys (cfg : GLConfig) (descs : List Uniform) :
    ∀ (us : List (String × Nat)) (uvs : List (String × UniformValue))
      (evs : List GLEvent), recordKeys us = recordKeys uvs →
      recordKeys (FastWebGL.setUniformsAux cfg descs us uvs evs).1 =
        recordKeys (FastWebGL.setUniformsAux cfg descs us uvs evs).2.1 := by
  induction descs with
  | nil => intro us uvs evs h; simpa [FastWebGL.setUniformsAux] using h
  | cons u rest ih =>
    intro us uvs evs h
    cases hloc : cfg.uniformLocation u.name with
    | none =>
      simp only [FastWebGL.setUniformsAux, hloc]
      exact ih us uvs evs h
    | some loc =>
      simp only [FastWebGL.setUniformsAux, hloc]
      apply ih
      rw [recordKeys_recordSet, recordKeys_recordSet,
        recordGet_isSome_congr us uvs u.name h, h]

/-- Presence in the location record built by setUniforms: exactly the names
already present plus the descriptor names whose uniform location is found. -/
theorem setUniformsAux_mem (cfg : GLConfig) (descs : List Uniform) :
    ∀ (us : List (String × Nat)) (uvs : List (String × UniformValue))
      (evs : List GLEvent) (name : String),
      ((recordGet (FastWebGL.setUniformsAux cfg descs us uvs evs).1 name).isSome
          = true ↔
        (recordGet us name).isSome = true ∨
          ((∃ u ∈ descs, Uniform.name u = name) ∧
            (cfg.uniformLocation name).isSome = true)) := by
  induction descs with
  | nil => intro us uvs evs name; simp [FastWebGL.setUniformsAux]
  | cons u rest ih =>
    intro us uvs evs name
    cases hloc : cfg.uniformLocation u.name with
    | none =>
      simp only [FastWebGL.setUniformsAux, hloc]
      rw [ih]
      constructor
      · rintro (h | ⟨⟨u0, hu0, hn⟩, hs⟩)
        · exact Or.inl h
        · exact Or.inr ⟨⟨u0, List.mem_cons_of_mem u hu0, hn⟩, hs⟩
      · rintro (h | ⟨⟨u0, hu0, hn⟩, hs⟩)
        · exact Or.inl h
        · rcases List.mem_cons.1 hu0 with h0 | h0
          · exfalso
            rw [← hn, h0, hloc] at hs
            exact Bool.false_ne_true hs
          · exact Or.inr ⟨⟨u0, h0, hn⟩, hs⟩
    | some loc =>
      simp only [FastWebGL.setUniformsAux, hloc]
      rw [ih]
      by_cases hn : u.name = name
      · subst hn
        rw [recordGet_recordSet_self]
        constructor
        · rintro (h | ⟨⟨u0, hu0, hn0⟩, hs⟩)
          · exact Or.inr ⟨⟨u, List.mem_cons_self u rest, rfl⟩,
              by rw [hloc]; rfl⟩
          · exact Or.inr ⟨⟨u0, List.mem_cons_of_mem u hu0, hn0⟩, hs⟩
        · intro _
          exact Or.inl rfl
      · rw [recordGet_recordSet_ne us u.name name loc hn]
        constructor
        · rintro (h | ⟨⟨u0, hu0, hn0⟩, hs⟩)
          · exact Or.inl h
          · exact Or.inr ⟨⟨u0, List.mem_cons_of_mem u hu0, hn0⟩, hs⟩
        · rintro (h | ⟨⟨u0, hu0, hn0⟩, hs⟩)
          · exact Or.inl h
          · rcases List.mem_cons.1 hu0 with h0 | h0
            · exact absurd (h0 ▸ hn0) hn
            · exact Or.inr ⟨⟨u0, h0, hn0⟩, hs⟩

/-- A successfully created texture stores the unit index it was given. -/
theorem create_ok_unit (cfg : GLConfig) (unit : Nat) (name source : String)
    (s s1 : GLState) (t : Texture)
    (h : Texture.create cfg unit name source s = (s1, Except.ok t)) :
    t.unit = unit := by
  unfold Texture.create at h
  split at h
  · simp only [Prod.mk.injEq, Except.ok.injEq] at h
    rw [← h.2]
  · simp at h

/-- A successful createList yields one texture per descriptor, with the unit
indices counting up from the initial index. -/
theorem createList_units (cfg : GLConfig) (descs : List TextureDesc) :
    ∀ (i : Nat) (s s2 : GLState) (ts : List Texture),
      Texture.createList cfg descs i s = (s2, Except.ok ts) →
      ts.map (fun t => t.unit) = List.range' i descs.length := by
  induction descs with
  | nil =>
    intro i s s2 ts h
    simp only [Texture.createList, Prod.mk.injEq, Except.ok.injEq] at h
    rw [← h.2]
    rfl
  | cons d rest ih =>
    intro i s s2 ts h
    simp only [Texture.createList] at h
    split at h
    · simp at h
    · rename_i s1 t heq
      split at h
      · simp at h
      · rename_i s3 ts1 heq2
        simp only [Prod.mk.injEq, Except.ok.injEq] at h
        rw [← h.2, List.map_cons, create_ok_unit cfg i d.name d.source s s1 t heq,
          ih (i + 1) s1 s3 ts1 heq2, List.length_cons,
          List.range'_succ i rest.length 1]

/-- Inversion of a successful construction: the stored textures come from a
successful createList over the descriptors starting at unit 0, and the two
uniform records are exactly the ones built by setUniforms. -/
theorem construct_ok_inv (cfg : GLConfig) (p : Params) (s : GLState)
    (w : FastWebGL) (h : FastWebGL.construct cfg p = (s, Except.ok w)) :
    (∃ sa sb : GLState,
        Texture.createList cfg p.textures 0 sa = (sb, Except.ok w.textures)) ∧
    w.uniforms = (FastWebGL.setUniforms cfg p.uniforms).1 ∧
    w.uniformValues = (FastWebGL.setUniforms cfg p.uniforms).2.1 := by
  unfold FastWebGL.construct at h
  split at h
  · dsimp only at h
    split at h
    · simp at h
    · split at h
      · simp at h
      · split at h
        · simp at h
        · split at h
          · simp at h
          · rename_i s3 ts heq
            split at h
            · simp at h
            · simp only [Prod.mk.injEq, Except.ok.injEq] at h
              obtain ⟨hs, hw⟩ := h
              subst hw
              dsimp only [FastWebGL.resize]
              exact ⟨⟨_, _, heq⟩, rfl, rfl⟩
  · simp at h

/-- A driver in which every step succeeds, with uniform locations found for
u_time and u_resolution only. -/
def cfgW : GLConfig :=
  { contextOk := true, windowInnerWidth := 640, windowInnerHeight := 480,
    canvasInitialWidth := 300, canvasInitialHeight := 150,
    shaderCreateOk := fun _ => true, compileOk := fun _ => true,
    shaderInfoLog := fun _ => "", programCreateOk := true,
    linkOk := true, validateOk := true, programInfoLog := "",
    textureCreateOk := fun _ => true, bufferCreateOk := true,
    attribLocation := fun _ => 0,
    uniformLocation := fun n =>
      if n = "u_time" then some 10
      else if n = "u_resolution" then some 11 else none,
    now := 0 }

/-- Construction parameters with two textures and three uniform descriptors,
one of which (u_missing) has no location in the linked program. -/
def pW : Params :=
  { vertexSource := "v", fragmentSource := "f",
    textures := [{ name := "u_tex0", source := "a.png" },
                 { name := "u_tex1", source := "b.png" }],
    uniforms := [{ name := "u_time", value := UniformValue.num 0 },
                 { name := "u_missing", value := UniformValue.num 1 },
                 { name := "u_resolution", value := UniformValue.arr [800, 600] }],
    width := some 800, height := some 600 }

/-- The driver state after constructing with cfgW and pW. -/
def sW : GLState :=
  { nextHandle := 6,
    events :=
      [GLEvent.createShader 0, GLEvent.createShader 1, GLEvent.createProgram 2,
       GLEvent.attachShader 2 0, GLEvent.attachShader 2 1, GLEvent.linkProgram 2,
       GLEvent.validateProgram 2, GLEvent.createTexture 3, GLEvent.createTexture 4,
       GLEvent.useProgram 2, GLEvent.createBuffer 5, GLEvent.bindBuffer 5,
       GLEvent.bufferData quadPositions, GLEvent.enableVertexAttribArray 0,
       GLEvent.vertexAttribPointer 0 2, GLEvent.upload (Upload.u1f 10 0),
       GLEvent.upload (Upload.u2f 11 800 600), GLEvent.viewport 0 0 800 600,
       GLEvent.viewport 0 0 800 600, GLEvent.clearColor 0 0 0 0, GLEvent.clear,
       GLEvent.useProgram 2, GLEvent.drawArrays 0 6] }

/-- C8: a successful construction yields one texture per descriptor and the
unit indices, in descriptor order, are exactly 0, 1, 2, ... so they are
unique and contiguous starting at 0. -/
theorem construct_texture_units (cfg : GLConfig) (p : Params) (s : GLState)
    (w : FastWebGL) (h : FastWebGL.construct cfg p = (s, Except.ok w)) :
    w.textures.length = p.textures.length ∧
    w.textures.map (fun t => t.unit) = List.range p.textures.length ∧
    (w.textures.map (fun t => t.unit)).Nodup := by
  obtain ⟨⟨sa, sb, hcl⟩, -, -⟩ := construct_ok_inv cfg p s w h
  have hu := createList_units cfg p.textures 0 sa sb w.textures hcl
  refine ⟨?_, ?_, ?_⟩
  · have hlen := congrArg List.length hu
    simpa using hlen
  · rw [hu, List.range_eq_range']
  · rw [hu]
    exact List.nodup_range' 0 p.textures.length 1 (by decide)

/-- C8 witness: the concrete construction yields textures with units 0, 1. -/
theorem construct_texture_units_witness :
    wE.textures.length = pW.textures.length ∧
    wE.textures.map (fun t => t.unit) = List.range pW.textures.length ∧
    (wE.textures.map (fun t => t.unit)).Nodup :=
  construct_texture_units cfgW pW sW wE rfl

/-- C10: after a successful construction the location record and the value
record have the same key list - the descriptor names whose uniform location
was found - and updateUniform never adds or removes a key from either
record, preserving the agreement. -/
theorem uniform_maps_key_agreement :
    (∀ (cfg : GLConfig) (p : Params) (s : GLState) (w : FastWebGL),
        FastWebGL.construct cfg p = (s, Except.ok w) →
        recordKeys w.uniforms = recordKeys w.uniformValues ∧
        (∀ name : String, (recordGet w.uniforms name).isSome = true ↔
          (∃ u ∈ p.uniforms, Uniform.name u = name) ∧
            (cfg.uniformLocation name).isSome = true)) ∧
    (∀ (w : FastWebGL) (name : String) (v : UniformValue),
        recordKeys w.uniforms = recordKeys w.uniformValues →
        recordKeys (FastWebGL.updateUniform w name v).1.uniforms =
            recordKeys w.uniforms ∧
        recordKeys (FastWebGL.updateUniform w name v).1.uniformValues =
            recordKeys w.uniformValues ∧
        recordKeys (FastWebGL.updateUniform w name v).1.uniforms =
            recordKeys (FastWebGL.updateUniform w name v).1.uniformValues) := by
  constructor
  · intro cfg p s w h
    obtain ⟨-, hu, huv⟩ := construct_ok_inv cfg p s w h
    constructor
    · rw [hu, huv]
      exact setUniformsAux_keys cfg p.uniforms [] [] [] rfl
    · intro name
      rw [hu]
      have hm := setUniformsAux_mem cfg p.uniforms [] [] [] name
      simpa [recordGet] using hm
  · intro w name v hk
    cases hloc : recordGet w.uniforms name with
    | none => simp [FastWebGL.updateUniform, hloc, hk]
    | some loc =>
      have hsome : (recordGet w.uniformValues name).isSome = true := by
        rw [← recordGet_isSome_congr w.uniforms w.uniformValues name hk, hloc]
        rfl
      have hset : recordKeys (recordSet w.uniformValues name v) =
          recordKeys w.uniformValues := by
        rw [recordKeys_recordSet, hsome]
        simp
      refine ⟨?_, ?_, ?_⟩
      · simp only [FastWebGL.updateUniform, hloc]
      · simp only [FastWebGL.updateUniform, hloc]
        exact hset
      · simp only [FastWebGL.updateUniform, hloc]
        rw [hset]
        exact hk

/-- C10 witness: key agreement for the concrete construction, preserved by a
concrete update. -/
theorem uniform_maps_key_agreement_witness :
    recordKeys wE.uniforms = recordKeys wE.uniformValues ∧
    recordKeys (FastWebGL.updateUniform wE "u_time" (UniformValue.num 2)).1.uniforms =
      recordKeys
        (FastWebGL.updateUniform wE "u_time" (UniformValue.num 2)).1.uniformValues :=
  ⟨(uniform_maps_key_agreement.1 cfgW pW sW wE rfl).1,
   (uniform_maps_key_agreement.2 wE "u_time" (UniformValue.num 2) (by decide)).2.2⟩
